import Mathlib

/-!
# Verification of the weather/geological alert service

Shallow embedding of `src/services/weatherService.ts` (class `WeatherService`)
from the `maps` repository, together with proofs of the frozen claims about it.

Modelling conventions:
* JavaScript `number` values carried by readings (coordinates, temperatures,
  precipitation, …) are modelled as rationals `ℚ`; integer risk scores as `ℕ`;
  millisecond epoch timestamps (`Date.now()`) as `ℤ`.
* `Math.random()` draws are passed in explicitly as named rational parameters,
  each accompanied (in theorems) by the hypothesis `0 ≤ r < 1`.
* `Math.round x` is `⌊x + 1/2⌋` (JavaScript rounds half-way cases up).
* ISO-8601 timestamp strings (`timestamp`, `expiresAt`, `lastUpdated`) are
  modelled by the underlying epoch-millisecond integer; `new Date(s) > now`
  becomes integer comparison.
* Display-only strings that interpolate JS number formatting
  (`currentConditions`, the accumulated-rainfall text, emoji icons, the
  5-entry forecast array) are not reproduced textually: no claim mentions
  them.  All constant titles, descriptions, risk and recommendation lists
  are reproduced verbatim.
* The source keeps weather and geological readings in one `Map` under the
  disjoint key prefixes `weather_…` / `geological_…`; the embedding uses two
  association lists, one per prefix, which is the same key space.
-/

namespace WeatherSvc

/-- JavaScript `Math.round`: round half-up. -/
def jsRound (q : ℚ) : ℤ := ⌊q + 1/2⌋

/-- Source `Math.round (q * 10) / 10`: round to one decimal, as the source does for
temperatures, precipitation, slope angle and seismic activity. -/
def round1 (q : ℚ) : ℚ := (jsRound (q * 10) : ℚ) / 10

/-- Source `AlertSeverity` from `src/types/weather.ts`. -/
inductive AlertSeverity where
  | Low
  | Moderate
  | High
  | Critical
deriving DecidableEq, Repr

/-- Source `AlertType` from `src/types/weather.ts`. -/
inductive AlertType where
  | landslide
  | flash_flood
  | severe_thunderstorm
  | temperature_extreme
  | high_wind
  | seismic_activity
  | general_weather
deriving DecidableEq, Repr

/-- Location metadata attached to a weather reading. -/
structure WeatherLocation where
  city : String
  region : String
  country : String
  lat : ℚ
  lng : ℚ
deriving DecidableEq, Repr

/-- The `current` block of `WeatherData`. -/
structure WeatherCurrent where
  temperature : ℚ
  humidity : ℚ
  pressure : ℚ
  windSpeed : ℚ
  windDirection : ℚ
  precipitation : ℚ
  visibility : ℚ
  uvIndex : ℚ
  condition : String
deriving DecidableEq, Repr

/-- Source `WeatherData` from `src/types/weather.ts` (forecast array and emoji icon
not modelled; `lastUpdated` as epoch ms). -/
structure WeatherData where
  location : WeatherLocation
  current : WeatherCurrent
  lastUpdated : ℤ
deriving DecidableEq, Repr

/-- Source `GeologicalData` from `src/types/weather.ts`. -/
structure GeologicalData where
  lat : ℚ
  lng : ℚ
  region : String
  soilMoisture : ℚ
  slopeAngle : ℚ
  recentRainfall : ℚ
  seismicActivity : ℚ
  terrainStability : ℚ
  lastUpdated : ℤ
deriving DecidableEq, Repr

/-- Source `Alert` from `src/types/weather.ts` (`currentConditions` not modelled,
timestamps as epoch ms). -/
structure Alert where
  id : String
  type : AlertType
  severity : AlertSeverity
  city : String
  region : String
  lat : ℚ
  lng : ℚ
  title : String
  description : String
  forecast : String
  risks : List String
  recommendations : List String
  timestamp : ℤ
  expiresAt : ℤ
  dataSource : String
  reliabilityScore : ℚ
  confidenceLevel : ℚ
deriving DecidableEq, Repr

/-- Source `MONSOON_MONTHS = [6, 7, 8, 9]`. -/
def MONSOON_MONTHS : List ℕ := [6, 7, 8, 9]

/-- Source `WINTER_MONTHS = [12, 1, 2]`. -/
def WINTER_MONTHS : List ℕ := [12, 1, 2]

/-- Source `SUMMER_MONTHS = [3, 4, 5]`. -/
def SUMMER_MONTHS : List ℕ := [3, 4, 5]

/-- Source `CACHE_DURATION = 5 * 60 * 1000` milliseconds. -/
def CACHE_DURATION : ℤ := 5 * 60 * 1000

/-- Source `isCoastalArea` (weatherService.ts:492). -/
def isCoastalArea (lat lng : ℚ) : Bool :=
  decide ((lng ≤ 73 ∧ 8 ≤ lat ∧ lat ≤ 23) ∨
          (79 ≤ lng ∧ 8 ≤ lat ∧ lat ≤ 20) ∨
          lat ≤ 10)

/-- Source `isHillStation` (weatherService.ts:501). -/
def isHillStation (lat lng : ℚ) : Bool :=
  decide ((30 ≤ lat ∧ 76 ≤ lng ∧ lng ≤ 80) ∨
          (29 ≤ lat ∧ lat ≤ 31 ∧ 78 ≤ lng ∧ lng ≤ 80) ∨
          (11 ≤ lat ∧ lat ≤ 12 ∧ 76 ≤ lng ∧ lng ≤ 77) ∨
          (15 ≤ lat ∧ lat ≤ 16 ∧ 73 ≤ lng ∧ lng ≤ 74))

/-- Source `isHimalayanRegion` (weatherService.ts:511). -/
def isHimalayanRegion (lat lng : ℚ) : Bool :=
  decide (28 ≤ lat ∧ 74 ≤ lng ∧ lng ≤ 95)

/-- Source `isWesternGhats` (weatherService.ts:515). -/
def isWesternGhats (lat lng : ℚ) : Bool :=
  decide (8 ≤ lat ∧ lat ≤ 21 ∧ 73 ≤ lng ∧ lng ≤ 77)

/-- Source `isDeccanPlateau` (weatherService.ts:519). -/
def isDeccanPlateau (lat lng : ℚ) : Bool :=
  decide (12 ≤ lat ∧ lat ≤ 24 ∧ 74 ≤ lng ∧ lng ≤ 84)

/-- Source `isGangticPlain` (weatherService.ts:523). -/
def isGangticPlain (lat lng : ℚ) : Bool :=
  decide (24 ≤ lat ∧ lat ≤ 30 ∧ 77 ≤ lng ∧ lng ≤ 88)

/-- Result record of `getIndianLocationInfo`. -/
structure LocationInfo where
  state : String
  city : String
  region : String
deriving DecidableEq, Repr

/-- Source `getIndianLocationInfo` (weatherService.ts:460): twelve state bounding
boxes tested in source order, with the Maharashtra/Mumbai fallback. -/
def getIndianLocationInfo (lat lng : ℚ) : LocationInfo :=
  if 28 ≤ lat ∧ lat ≤ 37 ∧ 74 ≤ lng ∧ lng ≤ 80 then
    ⟨"Himachal Pradesh", "Shimla", "Northern India"⟩
  else if 28 ≤ lat ∧ lat ≤ 31 ∧ 75 ≤ lng ∧ lng ≤ 78 then
    ⟨"Rajasthan", "Jaipur", "Northern India"⟩
  else if 18 ≤ lat ∧ lat ≤ 20 ∧ 72 ≤ lng ∧ lng ≤ 75 then
    ⟨"Maharashtra", "Mumbai", "Western India"⟩
  else if 12 ≤ lat ∧ lat ≤ 16 ∧ 74 ≤ lng ∧ lng ≤ 78 then
    ⟨"Karnataka", "Bangalore", "Southern India"⟩
  else if 8 ≤ lat ∧ lat ≤ 12 ∧ 76 ≤ lng ∧ lng ≤ 78 then
    ⟨"Tamil Nadu", "Chennai", "Southern India"⟩
  else if 8 ≤ lat ∧ lat ≤ 12 ∧ 74 ≤ lng ∧ lng ≤ 77 then
    ⟨"Kerala", "Kochi", "Southern India"⟩
  else if 22 ≤ lat ∧ lat ≤ 27 ∧ 87 ≤ lng ∧ lng ≤ 89 then
    ⟨"West Bengal", "Kolkata", "Eastern India"⟩
  else if 21 ≤ lat ∧ lat ≤ 24 ∧ 68 ≤ lng ∧ lng ≤ 74 then
    ⟨"Gujarat", "Ahmedabad", "Western India"⟩
  else if 24 ≤ lat ∧ lat ≤ 28 ∧ 77 ≤ lng ∧ lng ≤ 84 then
    ⟨"Uttar Pradesh", "Lucknow", "Northern India"⟩
  else if 21 ≤ lat ∧ lat ≤ 26 ∧ 74 ≤ lng ∧ lng ≤ 82 then
    ⟨"Madhya Pradesh", "Bhopal", "Central India"⟩
  else if 29 ≤ lat ∧ lat ≤ 31 ∧ 77 ≤ lng ∧ lng ≤ 81 then
    ⟨"Uttarakhand", "Dehradun", "Northern India"⟩
  else if 24 ≤ lat ∧ lat ≤ 28 ∧ 89 ≤ lng ∧ lng ≤ 96 then
    ⟨"Assam", "Guwahati", "North-Eastern India"⟩
  else
    ⟨"Maharashtra", "Mumbai", "Western India"⟩

/-- The `Math.random()` draws consumed by `generateIndianGeologicalData`,
in source order. -/
structure GeoRand where
  soil : ℚ
  rain : ℚ
  slope : ℚ
  seismic : ℚ
  terrain : ℚ
deriving DecidableEq, Repr

/-- All five draws of a `GeoRand` lie in `[0, 1)`. -/
def GeoRand.InRange (r : GeoRand) : Prop :=
  0 ≤ r.soil ∧ r.soil < 1 ∧ 0 ≤ r.rain ∧ r.rain < 1 ∧
  0 ≤ r.slope ∧ r.slope < 1 ∧ 0 ≤ r.seismic ∧ r.seismic < 1 ∧
  0 ≤ r.terrain ∧ r.terrain < 1

instance (r : GeoRand) : Decidable r.InRange := by
  unfold GeoRand.InRange; infer_instance

/-- Source `generateIndianGeologicalData` (weatherService.ts:406): monsoon drives
soil moisture/rainfall; the four region checks run in priority order
Himalayan, Western Ghats, Deccan Plateau, Gangetic Plain, the first match
overriding slope, seismic activity and terrain stability (Gangetic also adds
15 to soil moisture). -/
def generateIndianGeologicalData (month : ℕ) (lat lng : ℚ) (r : GeoRand)
    (now : ℤ) : GeologicalData :=
  let info := getIndianLocationInfo lat lng
  let soilMoisture : ℚ :=
    if month ∈ MONSOON_MONTHS then 60 + r.soil * 35 else 20 + r.soil * 40
  let recentRainfall : ℚ :=
    if month ∈ MONSOON_MONTHS then 50 + r.rain * 150 else r.rain * 30
  let slopeAngle : ℚ :=
    if isHimalayanRegion lat lng then 25 + r.slope * 20
    else if isWesternGhats lat lng then 15 + r.slope * 15
    else if isDeccanPlateau lat lng then 2 + r.slope * 8
    else if isGangticPlain lat lng then 1/2 + r.slope * 3
    else 5
  let seismicActivity : ℚ :=
    if isHimalayanRegion lat lng then 3/2 + r.seismic * (5/2)
    else if isWesternGhats lat lng then 1/2 + r.seismic * (3/2)
    else if isDeccanPlateau lat lng then 1/5 + r.seismic * (4/5)
    else if isGangticPlain lat lng then 1/10 + r.seismic * (1/2)
    else 1/2
  let terrainStability : ℚ :=
    if isHimalayanRegion lat lng then 50 + r.terrain * 30
    else if isWesternGhats lat lng then 60 + r.terrain * 25
    else if isDeccanPlateau lat lng then 75 + r.terrain * 20
    else if isGangticPlain lat lng then 85 + r.terrain * 15
    else 85
  let soilMoisture :=
    if ¬ isHimalayanRegion lat lng ∧ ¬ isWesternGhats lat lng ∧
       ¬ isDeccanPlateau lat lng ∧ isGangticPlain lat lng then
      soilMoisture + 15
    else soilMoisture
  { lat := lat, lng := lng, region := info.region,
    soilMoisture := (jsRound soilMoisture : ℚ),
    slopeAngle := round1 slopeAngle,
    recentRainfall := round1 recentRainfall,
    seismicActivity := round1 seismicActivity,
    terrainStability := (jsRound terrainStability : ℚ),
    lastUpdated := now }

/-- Result of `assessLandslideRisk`. -/
structure LandslideRisk where
  severity : AlertSeverity
  score : ℕ
deriving DecidableEq, Repr

/-- Source `assessLandslideRisk` (weatherService.ts:107): sequential accumulation of
the four weighted factors followed by the threshold classification. -/
def assessLandslideRisk (weather : WeatherData) (geological : GeologicalData) :
    LandslideRisk :=
  let riskScore : ℕ := 0
  let riskScore :=
    if weather.current.precipitation > 50 then riskScore + 40
    else if weather.current.precipitation > 25 then riskScore + 25
    else if weather.current.precipitation > 10 then riskScore + 15
    else riskScore
  let riskScore :=
    if geological.soilMoisture > 80 then riskScore + 30
    else if geological.soilMoisture > 60 then riskScore + 20
    else if geological.soilMoisture > 40 then riskScore + 10
    else riskScore
  let riskScore :=
    if geological.slopeAngle > 30 then riskScore + 20
    else if geological.slopeAngle > 20 then riskScore + 15
    else if geological.slopeAngle > 15 then riskScore + 10
    else riskScore
  let riskScore :=
    if geological.seismicActivity > 3 then riskScore + 10
    else if geological.seismicActivity > 2 then riskScore + 5
    else riskScore
  let severity : AlertSeverity :=
    if riskScore ≥ 80 then .Critical
    else if riskScore ≥ 60 then .High
    else if riskScore ≥ 40 then .Moderate
    else .Low
  { severity := severity, score := riskScore }

/-- The `Math.random()` draws consumed by `generateIndianWeatherData`
(forecast draws excluded, since the forecast array is not modelled). -/
structure WeatherRand where
  precip : ℚ
  hum : ℚ
  temp : ℚ
  pressure : ℚ
  wind : ℚ
  windDir : ℚ
  vis : ℚ
  uv : ℚ
deriving DecidableEq, Repr

/-- All draws of a `WeatherRand` lie in `[0, 1)`. -/
def WeatherRand.InRange (r : WeatherRand) : Prop :=
  0 ≤ r.precip ∧ r.precip < 1 ∧ 0 ≤ r.hum ∧ r.hum < 1 ∧
  0 ≤ r.temp ∧ r.temp < 1 ∧ 0 ≤ r.pressure ∧ r.pressure < 1 ∧
  0 ≤ r.wind ∧ r.wind < 1 ∧ 0 ≤ r.windDir ∧ r.windDir < 1 ∧
  0 ≤ r.vis ∧ r.vis < 1 ∧ 0 ≤ r.uv ∧ r.uv < 1

instance (r : WeatherRand) : Decidable r.InRange := by
  unfold WeatherRand.InRange; infer_instance

/-- Source `generateIndianWeatherData` (weatherService.ts:306).  The initial values
(`baseTemp = 25`, `precipitation = 0`, `humidity = 60`, `condition = Clear`)
are overwritten by every arm of the seasonal if/else chain, so the chain is
embedded directly.  The condition label is fixed inside the seasonal arm
(before the regional adjustments) and only the hill-station branch later
overrides it, exactly as in the source. -/
def generateIndianWeatherData (month : ℕ) (lat lng : ℚ) (r : WeatherRand)
    (now : ℤ) : WeatherData :=
  let info := getIndianLocationInfo lat lng
  let seasonal : ℚ × ℚ × ℚ × String :=
    if month ∈ MONSOON_MONTHS then
      let p := 15 + r.precip * 85
      (p, 75 + r.hum * 20, 26 + r.temp * 8,
       if p > 25 then "Heavy Rain"
       else if p > 10 then "Moderate Rain" else "Light Rain")
    else if month ∈ SUMMER_MONTHS then
      let t := 35 + r.temp * 12
      (r.precip * 5, 40 + r.hum * 25, t,
       if t > 42 then "Extreme Heat" else if t > 38 then "Very Hot" else "Hot")
    else if month ∈ WINTER_MONTHS then
      let t := 15 + r.temp * 15
      (r.precip * 8, 50 + r.hum * 30, t,
       if t < 18 then "Cool" else "Pleasant")
    else
      let p := r.precip * 15
      (p, 55 + r.hum * 25, 28 + r.temp * 10,
       if p > 5 then "Partly Cloudy" else "Clear")
  let precipitation := seasonal.1
  let humidity := seasonal.2.1
  let baseTemp := seasonal.2.2.1
  let condition := seasonal.2.2.2
  let latBand : ℚ × ℚ :=
    if lat > 30 then
      (baseTemp - 5 - (if month ∈ WINTER_MONTHS then 8 else 0), humidity)
    else if lat < 15 then (baseTemp + 2, humidity + 10)
    else (baseTemp, humidity)
  let baseTemp := latBand.1
  let humidity := latBand.2
  let coastal : ℚ × ℚ :=
    if isCoastalArea lat lng then (baseTemp - 2, humidity + 15)
    else (baseTemp, humidity)
  let baseTemp := coastal.1
  let humidity := coastal.2
  let hill : ℚ × ℚ × String :=
    if isHillStation lat lng then (baseTemp - 10, precipitation + 5, "Pleasant")
    else (baseTemp, precipitation, condition)
  let baseTemp := hill.1
  let precipitation := hill.2.1
  let condition := hill.2.2
  { location := ⟨info.city, info.region, "India", lat, lng⟩,
    current :=
      { temperature := round1 baseTemp,
        humidity := (jsRound humidity : ℚ),
        pressure := 1008 + r.pressure * 20,
        windSpeed := r.wind * 25 + 5,
        windDirection := r.windDir * 360,
        precipitation := round1 precipitation,
        visibility :=
          if month ∈ MONSOON_MONTHS then 3 + r.vis * 7 else 8 + r.vis * 7,
        uvIndex := r.uv * 11,
        condition := condition },
    lastUpdated := now }

/-- Severity rendered into alert titles, as TypeScript string interpolation
of the severity literal. -/
def severityString : AlertSeverity → String
  | .Low => "Low"
  | .Moderate => "Moderate"
  | .High => "High"
  | .Critical => "Critical"

/-- The random id suffixes (`Date.now()` plus base-36 draw) consumed by the
four alert constructors of one `generateAlerts` call. -/
structure AlertIds where
  landslide : String
  temp : String
  wind : String
  flood : String
deriving DecidableEq, Repr

set_option linter.unusedVariables false in
/-- Source `createLandslideAlert` (weatherService.ts:158).  The `geological`
argument feeds only the unmodelled `currentConditions` string, hence the
linter exemption. -/
def createLandslideAlert (risk : LandslideRisk) (weather : WeatherData)
    (geological : GeologicalData) (locationName : String) (now : ℤ)
    (idSuffix : String) : Alert :=
  { id := "landslide_" ++ idSuffix,
    type := .landslide,
    severity := risk.severity,
    city := locationName,
    region := weather.location.region,
    lat := weather.location.lat,
    lng := weather.location.lng,
    title := "Landslide " ++ severityString risk.severity ++ " Risk Alert",
    description := "Elevated landslide risk detected due to combination of heavy rainfall, high soil moisture, and terrain conditions.",
    forecast := "Continued precipitation expected. Risk may increase over next 6-12 hours.",
    risks := ["Potential slope failure and debris flow",
              "Road closures and transportation disruption",
              "Property damage in vulnerable areas",
              "Risk to life in high-risk zones"],
    recommendations := ["Avoid travel in mountainous or hilly areas",
                        "Stay away from steep slopes and cliff areas",
                        "Monitor local emergency broadcasts",
                        "Have evacuation plan ready if in risk zone",
                        "Report any signs of ground movement to authorities"],
    timestamp := now,
    expiresAt := now + 12 * 60 * 60 * 1000,
    dataSource := "Integrated Weather & Geological Monitoring",
    reliabilityScore := 85/100,
    confidenceLevel := 78/100 }

/-- Source `createTemperatureAlert` (weatherService.ts:193). -/
def createTemperatureAlert (weather : WeatherData) (locationName : String)
    (now : ℤ) (idSuffix : String) : Alert :=
  let isHot := weather.current.temperature > 40
  { id := "temp_" ++ idSuffix,
    type := .temperature_extreme,
    severity := if isHot then .High else .Moderate,
    city := locationName,
    region := weather.location.region,
    lat := weather.location.lat,
    lng := weather.location.lng,
    title := "Extreme " ++ (if isHot then "Heat" else "Cold") ++ " Warning",
    description := "Dangerous " ++ (if isHot then "high" else "low") ++ " temperatures pose health risks.",
    forecast := (if isHot then "Hot" else "Cold") ++ " conditions expected to continue for next 24-48 hours.",
    risks := if isHot then
               ["Heat exhaustion and heat stroke",
                "Dehydration",
                "Increased fire risk",
                "Power grid strain"]
             else
               ["Hypothermia and frostbite",
                "Frozen pipes",
                "Transportation hazards",
                "Increased heating costs"],
    recommendations := if isHot then
                         ["Stay indoors during peak hours",
                          "Drink plenty of water",
                          "Wear light, loose clothing",
                          "Check on elderly neighbors"]
                       else
                         ["Dress in layers",
                          "Limit outdoor exposure",
                          "Keep heating systems maintained",
                          "Protect pipes from freezing"],
    timestamp := now,
    expiresAt := now + 24 * 60 * 60 * 1000,
    dataSource := "OpenWeatherMap API",
    reliabilityScore := 92/100,
    confidenceLevel := 88/100 }

/-- Source `createWindAlert` (weatherService.ts:238). -/
def createWindAlert (weather : WeatherData) (locationName : String)
    (now : ℤ) (idSuffix : String) : Alert :=
  { id := "wind_" ++ idSuffix,
    type := .high_wind,
    severity := if weather.current.windSpeed > 35 then .High else .Moderate,
    city := locationName,
    region := weather.location.region,
    lat := weather.location.lat,
    lng := weather.location.lng,
    title := "High Wind Advisory",
    description := "Strong winds may cause hazardous conditions.",
    forecast := "Winds expected to remain strong for next 6-12 hours.",
    risks := ["Downed trees and power lines",
              "Property damage",
              "Difficult driving conditions",
              "Flying debris hazard"],
    recommendations := ["Secure loose outdoor items",
                        "Avoid driving high-profile vehicles",
                        "Stay away from trees and power lines",
                        "Postpone outdoor activities"],
    timestamp := now,
    expiresAt := now + 12 * 60 * 60 * 1000,
    dataSource := "Weather Station Network",
    reliabilityScore := 89/100,
    confidenceLevel := 82/100 }

/-- Source `createFloodAlert` (weatherService.ts:272). -/
def createFloodAlert (weather : WeatherData) (locationName : String)
    (now : ℤ) (idSuffix : String) : Alert :=
  { id := "flood_" ++ idSuffix,
    type := .flash_flood,
    severity := if weather.current.precipitation > 50 then .Critical else .High,
    city := locationName,
    region := weather.location.region,
    lat := weather.location.lat,
    lng := weather.location.lng,
    title := "Flash Flood Warning",
    description := "Heavy rainfall may cause rapid flooding in low-lying areas.",
    forecast := "Heavy rain expected to continue for next 2-4 hours.",
    risks := ["Rapid water rise in streams and roads",
              "Vehicle entrapment",
              "Property flooding",
              "Life-threatening conditions"],
    recommendations := ["Avoid driving through flooded roads",
                        "Move to higher ground if necessary",
                        "Stay informed via emergency broadcasts",
                        "Do not walk in moving water"],
    timestamp := now,
    expiresAt := now + 6 * 60 * 60 * 1000,
    dataSource := "Precipitation Radar Network",
    reliabilityScore := 91/100,
    confidenceLevel := 85/100 }

/-- Source `assessWeatherHazards` (weatherService.ts:137): temperature, wind, flood
checks in source order, each pushing at most one alert. -/
def assessWeatherHazards (weather : WeatherData) (locationName : String)
    (now : ℤ) (ids : AlertIds) : List Alert :=
  (if weather.current.temperature > 40 ∨ weather.current.temperature < -20
   then [createTemperatureAlert weather locationName now ids.temp] else [])
  ++ (if weather.current.windSpeed > 25
      then [createWindAlert weather locationName now ids.wind] else [])
  ++ (if weather.current.precipitation > 25
      then [createFloodAlert weather locationName now ids.flood] else [])

/-- Source `Map.prototype.get`: lookup in an association list. -/
def mapGet {α β : Type} [DecidableEq α] : List (α × β) → α → Option β
  | [], _ => none
  | (k', v') :: rest, k => if k = k' then some v' else mapGet rest k

/-- Source `Map.prototype.set`: update an existing key in place, else append. -/
def mapSet {α β : Type} [DecidableEq α] : List (α × β) → α → β → List (α × β)
  | [], k, v => [(k, v)]
  | (k', v') :: rest, k, v =>
      if k = k' then (k, v) :: rest else (k', v') :: mapSet rest k v

/-- The mutable state of the `WeatherService` singleton: the reading cache
(split by its two key prefixes) and the alert cache keyed by alert id. -/
structure ServiceState where
  weatherCache : List ((ℚ × ℚ) × (WeatherData × ℤ))
  geoCache : List ((ℚ × ℚ) × (GeologicalData × ℤ))
  alertCache : List (String × Alert)
deriving DecidableEq, Repr

/-- The empty caches of a freshly constructed service. -/
def ServiceState.empty : ServiceState := ⟨[], [], []⟩

/-- Source `getWeatherData` (weatherService.ts:35): return a cached reading younger
than `CACHE_DURATION`, otherwise regenerate and cache with the current
timestamp. -/
def getWeatherData (st : ServiceState) (now : ℤ) (month : ℕ) (lat lng : ℚ)
    (r : WeatherRand) : WeatherData × ServiceState :=
  match mapGet st.weatherCache (lat, lng) with
  | some (d, ts) =>
      if now - ts < CACHE_DURATION then (d, st)
      else
        let d' := generateIndianWeatherData month lat lng r now
        (d', { st with weatherCache := mapSet st.weatherCache (lat, lng) (d', now) })
  | none =>
      let d' := generateIndianWeatherData month lat lng r now
      (d', { st with weatherCache := mapSet st.weatherCache (lat, lng) (d', now) })

/-- Source `getGeologicalData` (weatherService.ts:59): same cache discipline under
the `geological_` key prefix. -/
def getGeologicalData (st : ServiceState) (now : ℤ) (month : ℕ) (lat lng : ℚ)
    (r : GeoRand) : GeologicalData × ServiceState :=
  match mapGet st.geoCache (lat, lng) with
  | some (d, ts) =>
      if now - ts < CACHE_DURATION then (d, st)
      else
        let d' := generateIndianGeologicalData month lat lng r now
        (d', { st with geoCache := mapSet st.geoCache (lat, lng) (d', now) })
  | none =>
      let d' := generateIndianGeologicalData month lat lng r now
      (d', { st with geoCache := mapSet st.geoCache (lat, lng) (d', now) })

/-- The `try` blocks of the two getters wrap a pure total generator, so the
`catch` arms (`Failed to fetch …`) can never run; the `Except`-typed wrapper
makes that reachability statement explicit. -/
def getWeatherDataE (st : ServiceState) (now : ℤ) (month : ℕ) (lat lng : ℚ)
    (r : WeatherRand) : Except String (WeatherData × ServiceState) :=
  .ok (getWeatherData st now month lat lng r)

/-- Failure-typed view of `getGeologicalData`; see `getWeatherDataE`. -/
def getGeologicalDataE (st : ServiceState) (now : ℤ) (month : ℕ) (lat lng : ℚ)
    (r : GeoRand) : Except String (GeologicalData × ServiceState) :=
  .ok (getGeologicalData st now month lat lng r)

/-- Source `generateAlerts` (weatherService.ts:83): fetch both readings through the
cache, run the landslide assessment and the three weather hazard checks, and
insert every produced alert into the alert cache keyed by its id. -/
def generateAlerts (st : ServiceState) (now : ℤ) (month : ℕ) (lat lng : ℚ)
    (locationName : String) (rw : WeatherRand) (rg : GeoRand) (ids : AlertIds) :
    List Alert × ServiceState :=
  let ws := getWeatherData st now month lat lng rw
  let weatherData := ws.1
  let gs := getGeologicalData ws.2 now month lat lng rg
  let geologicalData := gs.1
  let landslideRisk := assessLandslideRisk weatherData geologicalData
  let alerts :=
    (if landslideRisk.severity ≠ .Low then
       [createLandslideAlert landslideRisk weatherData geologicalData
          locationName now ids.landslide]
     else [])
    ++ assessWeatherHazards weatherData locationName now ids
  (alerts,
   { gs.2 with
     alertCache := alerts.foldl (fun m a => mapSet m a.id a) gs.2.alertCache })

/-- Source `getActiveAlerts` (weatherService.ts:527). -/
def getActiveAlerts (st : ServiceState) (now : ℤ) : List Alert :=
  (st.alertCache.map Prod.snd).filter (fun a => decide (a.expiresAt > now))

/-- Source `clearExpiredAlerts` (weatherService.ts:534): delete every cached alert
with `expiresAt ≤ now`. -/
def clearExpiredAlerts (st : ServiceState) (now : ℤ) : ServiceState :=
  { st with
    alertCache := st.alertCache.filter (fun e => decide (¬ e.2.expiresAt ≤ now)) }

/-! ## Spec-side formulations

These definitions follow the wording of the specification (not the source)
and are compared against the embedded source functions. -/

/-- Spec wording: precipitation >50 adds 40, else >25 adds 25, else >10
adds 15. -/
def rainfallFactor (w : WeatherData) : ℕ :=
  if w.current.precipitation > 50 then 40
  else if w.current.precipitation > 25 then 25
  else if w.current.precipitation > 10 then 15
  else 0

/-- Spec wording: soil moisture >80 adds 30, else >60 adds 20, else >40
adds 10. -/
def soilMoistureFactor (g : GeologicalData) : ℕ :=
  if g.soilMoisture > 80 then 30
  else if g.soilMoisture > 60 then 20
  else if g.soilMoisture > 40 then 10
  else 0

/-- Spec wording: slope angle >30 adds 20, else >20 adds 15, else >15
adds 10. -/
def slopeAngleFactor (g : GeologicalData) : ℕ :=
  if g.slopeAngle > 30 then 20
  else if g.slopeAngle > 20 then 15
  else if g.slopeAngle > 15 then 10
  else 0

/-- Spec wording: seismic activity >3.0 adds 10, else >2.0 adds 5. -/
def seismicFactor (g : GeologicalData) : ℕ :=
  if g.seismicActivity > 3 then 10
  else if g.seismicActivity > 2 then 5
  else 0

/-! ## Helper lemmas -/

/-- The severity produced by `assessLandslideRisk` is the threshold
classification of its own score. -/
lemma assessLandslideRisk_severity_eq (w : WeatherData) (g : GeologicalData) :
    (assessLandslideRisk w g).severity =
      (if (assessLandslideRisk w g).score ≥ 80 then AlertSeverity.Critical
       else if (assessLandslideRisk w g).score ≥ 60 then .High
       else if (assessLandslideRisk w g).score ≥ 40 then .Moderate
       else .Low) := rfl

/-- The rainfall step of the accumulation adds `rainfallFactor`. -/
lemma rain_step (w : WeatherData) (rs : ℕ) :
    (if w.current.precipitation > 50 then rs + 40
     else if w.current.precipitation > 25 then rs + 25
     else if w.current.precipitation > 10 then rs + 15
     else rs) = rs + rainfallFactor w := by
  unfold rainfallFactor; split_ifs <;> omega

/-- The soil-moisture step of the accumulation adds `soilMoistureFactor`. -/
lemma soil_step (g : GeologicalData) (rs : ℕ) :
    (if g.soilMoisture > 80 then rs + 30
     else if g.soilMoisture > 60 then rs + 20
     else if g.soilMoisture > 40 then rs + 10
     else rs) = rs + soilMoistureFactor g := by
  unfold soilMoistureFactor; split_ifs <;> omega

/-- The slope-angle step of the accumulation adds `slopeAngleFactor`. -/
lemma slope_step (g : GeologicalData) (rs : ℕ) :
    (if g.slopeAngle > 30 then rs + 20
     else if g.slopeAngle > 20 then rs + 15
     else if g.slopeAngle > 15 then rs + 10
     else rs) = rs + slopeAngleFactor g := by
  unfold slopeAngleFactor; split_ifs <;> omega

/-- The seismic step of the accumulation adds `seismicFactor`. -/
lemma seismic_step (g : GeologicalData) (rs : ℕ) :
    (if g.seismicActivity > 3 then rs + 10
     else if g.seismicActivity > 2 then rs + 5
     else rs) = rs + seismicFactor g := by
  unfold seismicFactor; split_ifs <;> omega

/-- The landslide score is the sum of the four spec-side factors. -/
lemma assessLandslideRisk_score_eq (w : WeatherData) (g : GeologicalData) :
    (assessLandslideRisk w g).score =
      rainfallFactor w + soilMoistureFactor g + slopeAngleFactor g +
        seismicFactor g := by
  simp only [assessLandslideRisk]
  simp only [rain_step, soil_step, slope_step, seismic_step]
  omega

/-- The landslide severity differs from Low exactly when the score is at
least 40. -/
lemma severity_ne_low_iff (w : WeatherData) (g : GeologicalData) :
    (assessLandslideRisk w g).severity ≠ .Low ↔
      40 ≤ (assessLandslideRisk w g).score := by
  rw [assessLandslideRisk_severity_eq]
  split_ifs <;> simp <;> omega

/-- Unfolding of the alert list produced by `generateAlerts`: the optional
landslide alert followed by the weather hazard alerts, all computed from the
two readings fetched through the cache. -/
lemma generateAlerts_fst (st : ServiceState) (now : ℤ) (month : ℕ)
    (lat lng : ℚ) (locationName : String) (rw : WeatherRand) (rg : GeoRand)
    (ids : AlertIds) :
    (generateAlerts st now month lat lng locationName rw rg ids).1 =
      (if (assessLandslideRisk (getWeatherData st now month lat lng rw).1
             (getGeologicalData (getWeatherData st now month lat lng rw).2
                now month lat lng rg).1).severity ≠ .Low then
         [createLandslideAlert
            (assessLandslideRisk (getWeatherData st now month lat lng rw).1
               (getGeologicalData (getWeatherData st now month lat lng rw).2
                  now month lat lng rg).1)
            (getWeatherData st now month lat lng rw).1
            (getGeologicalData (getWeatherData st now month lat lng rw).2
               now month lat lng rg).1
            locationName now ids.landslide]
       else [])
      ++ assessWeatherHazards (getWeatherData st now month lat lng rw).1
           locationName now ids := rfl

/-- Every alert produced by `assessWeatherHazards` is a temperature, wind or
flood alert. -/
lemma assessWeatherHazards_types (w : WeatherData) (l : String) (now : ℤ)
    (ids : AlertIds) :
    ∀ a ∈ assessWeatherHazards w l now ids,
      a.type = AlertType.temperature_extreme ∨ a.type = .high_wind ∨
      a.type = .flash_flood := by
  intro a ha
  unfold assessWeatherHazards at ha
  rcases List.mem_append.mp ha with h | h
  · rcases List.mem_append.mp h with h2 | h2 <;> split at h2 <;>
      simp_all [createTemperatureAlert, createWindAlert]
  · split at h <;> simp_all [createFloodAlert]

/-- Claim C1: the landslide risk score equals the sum of the four weighted
factors of the spec; severity is Critical iff score ≥ 80, High iff it lies
in `[60, 80)`, Moderate iff it lies in `[40, 60)`; and `generateAlerts`
emits a landslide alert iff the score of the readings it fetched is ≥ 40
(equivalently, iff the severity is not Low). -/
theorem landslide_score_is_factor_sum_and_gates_alert :
    ∀ (w : WeatherData) (g : GeologicalData),
      (assessLandslideRisk w g).score =
        rainfallFactor w + soilMoistureFactor g + slopeAngleFactor g +
          seismicFactor g
      ∧ ((assessLandslideRisk w g).severity = .Critical ↔
           80 ≤ (assessLandslideRisk w g).score)
      ∧ ((assessLandslideRisk w g).severity = .High ↔
           60 ≤ (assessLandslideRisk w g).score ∧
           (assessLandslideRisk w g).score < 80)
      ∧ ((assessLandslideRisk w g).severity = .Moderate ↔
           40 ≤ (assessLandslideRisk w g).score ∧
           (assessLandslideRisk w g).score < 60)
      ∧ (∀ (st : ServiceState) (now : ℤ) (month : ℕ) (lat lng : ℚ)
           (locationName : String) (rw : WeatherRand) (rg : GeoRand)
           (ids : AlertIds),
           (∃ a ∈ (generateAlerts st now month lat lng locationName
                      rw rg ids).1,
              a.type = AlertType.landslide) ↔
             40 ≤ (assessLandslideRisk
                     (getWeatherData st now month lat lng rw).1
                     (getGeologicalData
                        (getWeatherData st now month lat lng rw).2
                        now month lat lng rg).1).score) := by
  intro w g
  refine ⟨assessLandslideRisk_score_eq w g, ?_, ?_, ?_, ?_⟩
  · rw [assessLandslideRisk_severity_eq]
    split_ifs <;> simp <;> omega
  · rw [assessLandslideRisk_severity_eq]
    split_ifs <;> simp <;> omega
  · rw [assessLandslideRisk_severity_eq]
    split_ifs <;> simp <;> omega
  · intro st now month lat lng locationName rw rg ids
    rw [generateAlerts_fst]
    set W := (getWeatherData st now month lat lng rw).1 with hW
    set G := (getGeologicalData (getWeatherData st now month lat lng rw).2
      now month lat lng rg).1 with hG
    constructor
    · rintro ⟨a, ha, hty⟩
      rcases List.mem_append.mp ha with hmem | hmem
      · by_cases hsev : (assessLandslideRisk W G).severity ≠ .Low
        · exact (severity_ne_low_iff W G).mp hsev
        · rw [if_neg hsev] at hmem
          exact absurd hmem (List.not_mem_nil a)
      · rcases assessWeatherHazards_types _ _ _ _ a hmem with h | h | h <;>
          rw [hty] at h <;> exact absurd h (by simp)
    · intro hscore
      have hne : (assessLandslideRisk W G).severity ≠ .Low :=
        (severity_ne_low_iff W G).mpr hscore
      refine ⟨createLandslideAlert (assessLandslideRisk W G) W G
        locationName now ids.landslide,
        List.mem_append.mpr (Or.inl ?_), rfl⟩
      rw [if_pos hne]
      exact List.mem_singleton.mpr rfl

/-- Values of the entries surviving the expiry filter are the filtered
values. -/
lemma map_snd_filter_expiry (l : List (String × Alert)) (now : ℤ) :
    (l.filter (fun e => decide (¬ e.2.expiresAt ≤ now))).map Prod.snd =
      (l.map Prod.snd).filter (fun a => decide (a.expiresAt > now)) := by
  induction l with
  | nil => rfl
  | cons x xs ih =>
      simp only [not_le, gt_iff_lt] at ih ⊢
      by_cases h : now < x.2.expiresAt
      · simp [List.filter_cons, h, ih]
      · simp [List.filter_cons, h, ih]

/-- A sample alert used to instantiate universally quantified statements. -/
def sampleAlert (t e : ℤ) : Alert :=
  { id := "sample", type := .landslide, severity := .Low,
    city := "", region := "", lat := 0, lng := 0,
    title := "", description := "", forecast := "",
    risks := [], recommendations := [],
    timestamp := t, expiresAt := e, dataSource := "",
    reliabilityScore := 0, confidenceLevel := 0 }

/-- Claim C4: `getActiveAlerts` returns exactly the cached alerts with
`expiresAt` strictly greater than `now`, and never one with
`expiresAt ≤ now`. -/
theorem getActiveAlerts_exactly_unexpired :
    ∀ (st : ServiceState) (now : ℤ) (a : Alert),
      (a ∈ getActiveAlerts st now ↔
        (∃ k, (k, a) ∈ st.alertCache) ∧ now < a.expiresAt)
      ∧ (a.expiresAt ≤ now → a ∉ getActiveAlerts st now) := by
  intro st now a
  have hmem : a ∈ getActiveAlerts st now ↔
      (∃ k, (k, a) ∈ st.alertCache) ∧ now < a.expiresAt := by
    unfold getActiveAlerts
    constructor
    · intro h
      obtain ⟨hm, hexp⟩ := List.mem_filter.mp h
      obtain ⟨⟨k, b⟩, hkb, hb⟩ := List.mem_map.mp hm
      simp only at hb
      subst hb
      exact ⟨⟨k, hkb⟩, by simpa using hexp⟩
    · rintro ⟨⟨k, hk⟩, hexp⟩
      exact List.mem_filter.mpr
        ⟨List.mem_map.mpr ⟨(k, a), hk, rfl⟩, by simpa using hexp⟩
  refine ⟨hmem, fun hle hin => ?_⟩
  exact absurd (hmem.mp hin).2 (not_lt.mpr hle)

/-- Claim C4 witness: an alert already expired at `now = 10` is not returned. -/
theorem getActiveAlerts_exactly_unexpired_witness :
    sampleAlert 0 5 ∉
      getActiveAlerts ⟨[], [], [("sample", sampleAlert 0 5)]⟩ 10 :=
  (getActiveAlerts_exactly_unexpired
    ⟨[], [], [("sample", sampleAlert 0 5)]⟩ 10 (sampleAlert 0 5)).2
    (by decide)

/-- Claim C5: `clearExpiredAlerts` keeps exactly the entries whose alert
`getActiveAlerts` would return, touches nothing else, and is idempotent. -/
theorem clearExpiredAlerts_exact_and_idempotent :
    ∀ (st : ServiceState) (now : ℤ),
      (∀ (k : String) (a : Alert),
        (k, a) ∈ (clearExpiredAlerts st now).alertCache ↔
          (k, a) ∈ st.alertCache ∧ now < a.expiresAt)
      ∧ (clearExpiredAlerts st now).weatherCache = st.weatherCache
      ∧ (clearExpiredAlerts st now).geoCache = st.geoCache
      ∧ (clearExpiredAlerts st now).alertCache.map Prod.snd =
          getActiveAlerts st now
      ∧ clearExpiredAlerts (clearExpiredAlerts st now) now =
          clearExpiredAlerts st now := by
  intro st now
  refine ⟨?_, rfl, rfl, ?_, ?_⟩
  · intro k a
    unfold clearExpiredAlerts
    simp [List.mem_filter, not_le]
  · exact map_snd_filter_expiry st.alertCache now
  · unfold clearExpiredAlerts
    simp only [ServiceState.mk.injEq, and_true, true_and]
    refine List.filter_eq_self.mpr (fun e he => ?_)
    exact (List.mem_filter.mp he).2

/-- Claim C5 witness: on a cache holding one live and one expired alert at
`now = 10`, the expired entry is removed, the live one kept, and a second
clear is a no-op. -/
theorem clearExpiredAlerts_exact_and_idempotent_witness :
    (("live", sampleAlert 0 20) ∈
        (clearExpiredAlerts
          ⟨[], [], [("live", sampleAlert 0 20), ("old", sampleAlert 0 5)]⟩
          10).alertCache
      ↔ (("live", sampleAlert 0 20) ∈
          [("live", sampleAlert 0 20), ("old", sampleAlert 0 5)] ∧
         (10 : ℤ) < (sampleAlert 0 20).expiresAt)) ∧
    clearExpiredAlerts
        (clearExpiredAlerts
          ⟨[], [], [("live", sampleAlert 0 20), ("old", sampleAlert 0 5)]⟩
          10) 10 =
      clearExpiredAlerts
        ⟨[], [], [("live", sampleAlert 0 20), ("old", sampleAlert 0 5)]⟩
        10 :=
  ⟨(clearExpiredAlerts_exact_and_idempotent
      ⟨[], [], [("live", sampleAlert 0 20), ("old", sampleAlert 0 5)]⟩
      10).1 "live" (sampleAlert 0 20),
   (clearExpiredAlerts_exact_and_idempotent
      ⟨[], [], [("live", sampleAlert 0 20), ("old", sampleAlert 0 5)]⟩
      10).2.2.2.2⟩

/-- The hazard-type expiry horizon of the spec, in milliseconds: 12 hours
for landslide, 24 for temperature extremes, 12 for high wind, 6 for flash
flood.  The remaining declared alert types are never produced by
`generateAlerts`. -/
def alertHorizonMs : AlertType → ℤ
  | .landslide => 12 * 60 * 60 * 1000
  | .temperature_extreme => 24 * 60 * 60 * 1000
  | .high_wind => 12 * 60 * 60 * 1000
  | .flash_flood => 6 * 60 * 60 * 1000
  | _ => 0

/-- A sample weather reading used to seed caches in witnesses. -/
def sampleWeather : WeatherData :=
  { location := ⟨"Delhi", "Northern India", "India", 0, 0⟩,
    current := { temperature := 30, humidity := 80, pressure := 1010,
                 windSpeed := 10, windDirection := 0, precipitation := 60,
                 visibility := 5, uvIndex := 3, condition := "Heavy Rain" },
    lastUpdated := 0 }

/-- A sample geological reading used to seed caches in witnesses. -/
def sampleGeo : GeologicalData :=
  { lat := 0, lng := 0, region := "Northern India",
    soilMoisture := 85, slopeAngle := 35, recentRainfall := 100,
    seismicActivity := 4, terrainStability := 60, lastUpdated := 0 }

/-- A service state whose caches hold the two sample readings for
`(0, 0)`, fetched at time 0. -/
def sampleState : ServiceState :=
  ⟨[((0, 0), (sampleWeather, 0))],
   [((0, 0), (sampleGeo, 0))], []⟩

/-- Fixed id suffixes for witnesses. -/
def sampleIds : AlertIds := ⟨"l", "t", "w", "f"⟩

/-- Fixed weather draws for witnesses (irrelevant on a cache hit). -/
def sampleWR : WeatherRand := ⟨0, 0, 0, 0, 0, 0, 0, 0⟩

/-- Fixed geological draws for witnesses (irrelevant on a cache hit). -/
def sampleGR : GeoRand := ⟨0, 0, 0, 0, 0⟩

/-- Claim C6: every alert returned by `generateAlerts` expires exactly its
hazard-type horizon after its creation timestamp. -/
theorem generateAlerts_expiry_horizon :
    ∀ (st : ServiceState) (now : ℤ) (month : ℕ) (lat lng : ℚ)
      (locationName : String) (rw : WeatherRand) (rg : GeoRand)
      (ids : AlertIds),
      ∀ a ∈ (generateAlerts st now month lat lng locationName rw rg ids).1,
        a.expiresAt = a.timestamp + alertHorizonMs a.type := by
  intro st now month lat lng locationName rw rg ids a ha
  rw [generateAlerts_fst] at ha
  rcases List.mem_append.mp ha with h | h
  · split at h
    · rw [List.mem_singleton] at h
      subst h
      rfl
    · exact absurd h (List.not_mem_nil a)
  · unfold assessWeatherHazards at h
    rcases List.mem_append.mp h with h2 | h2
    · rcases List.mem_append.mp h2 with h3 | h3 <;> split at h3 <;>
        simp_all <;> subst h3 <;> rfl
    · split at h2
      · rw [List.mem_singleton] at h2
        subst h2
        rfl
      · exact absurd h2 (List.not_mem_nil a)

/-- The alert list of the sample call, evaluated: Critical landslide alert
plus flood alert (and no temperature or wind alert). -/
lemma sample_generateAlerts_eq :
    (generateAlerts sampleState 0 7 0 0 "Delhi" sampleWR sampleGR
        sampleIds).1 =
      [createLandslideAlert (assessLandslideRisk sampleWeather sampleGeo)
         sampleWeather sampleGeo "Delhi" 0 "l",
       createFloodAlert sampleWeather "Delhi" 0 "f"] := by rfl

/-- Claim C6 witness: the flood alert produced for the sample cached readings
expires exactly 6 hours after its timestamp. -/
theorem generateAlerts_expiry_horizon_witness :
    (createFloodAlert sampleWeather "Delhi" 0 "f").expiresAt =
      (createFloodAlert sampleWeather "Delhi" 0 "f").timestamp +
        alertHorizonMs (createFloodAlert sampleWeather "Delhi" 0 "f").type :=
  generateAlerts_expiry_horizon sampleState 0 7 0 0 "Delhi"
    sampleWR sampleGR sampleIds
    (createFloodAlert sampleWeather "Delhi" 0 "f")
    (by rw [sample_generateAlerts_eq]; simp)

/-- Claim C9: the alert list of one `generateAlerts` call carries at most one
alert per hazard type, in the fixed order landslide, temperature extreme,
high wind, flash flood; hence it has at most 4 elements, and the declared
types severe_thunderstorm, seismic_activity and general_weather are never
produced. -/
theorem generateAlerts_at_most_one_per_type :
    ∀ (st : ServiceState) (now : ℤ) (month : ℕ) (lat lng : ℚ)
      (locationName : String) (rw : WeatherRand) (rg : GeoRand)
      (ids : AlertIds),
      ((generateAlerts st now month lat lng locationName rw rg ids).1.map
          Alert.type).Sublist
        [AlertType.landslide, .temperature_extreme, .high_wind, .flash_flood]
      ∧ (generateAlerts st now month lat lng locationName rw rg ids).1.length
          ≤ 4
      ∧ (∀ a ∈ (generateAlerts st now month lat lng locationName
                  rw rg ids).1,
           a.type ≠ .severe_thunderstorm ∧ a.type ≠ .seismic_activity ∧
           a.type ≠ .general_weather) := by
  intro st now month lat lng locationName rw rg ids
  have hsub :
      ((generateAlerts st now month lat lng locationName rw rg ids).1.map
          Alert.type).Sublist
        [AlertType.landslide, .temperature_extreme, .high_wind,
         .flash_flood] := by
    rw [generateAlerts_fst]
    unfold assessWeatherHazards
    split_ifs <;>
      simp [createLandslideAlert, createTemperatureAlert, createWindAlert,
            createFloodAlert]
  refine ⟨hsub, ?_, ?_⟩
  · have hlen := hsub.length_le
    simpa [List.length_map] using hlen
  · intro a ha
    have hmem : a.type ∈
        [AlertType.landslide, .temperature_extreme, .high_wind,
         .flash_flood] :=
      hsub.subset (List.mem_map_of_mem Alert.type ha)
    simp only [List.mem_cons, List.not_mem_nil, or_false] at hmem
    rcases hmem with h | h | h | h <;> simp [h]

/-- Claim C9 witness: the flood alert of the sample call has none of the three
never-produced types. -/
theorem generateAlerts_at_most_one_per_type_witness :
    (createFloodAlert sampleWeather "Delhi" 0 "f").type ≠
        AlertType.severe_thunderstorm ∧
    (createFloodAlert sampleWeather "Delhi" 0 "f").type ≠
        AlertType.seismic_activity ∧
    (createFloodAlert sampleWeather "Delhi" 0 "f").type ≠
        AlertType.general_weather :=
  (generateAlerts_at_most_one_per_type sampleState 0 7 0 0 "Delhi"
      sampleWR sampleGR sampleIds).2.2
    (createFloodAlert sampleWeather "Delhi" 0 "f")
    (by rw [sample_generateAlerts_eq]; simp)

/-- Reading a key just written returns the written value. -/
lemma mapGet_mapSet_self {α β : Type} [DecidableEq α] (m : List (α × β))
    (k : α) (v : β) : mapGet (mapSet m k v) k = some v := by
  induction m with
  | nil => simp [mapSet, mapGet]
  | cons x xs ih =>
      obtain ⟨k', v'⟩ := x
      by_cases h : k = k'
      · simp [mapSet, mapGet, h]
      · simp [mapSet, mapGet, h, ih]

/-- A fresh cached weather reading is returned unchanged. -/
lemma getWeatherData_hit (st : ServiceState) (now : ℤ) (month : ℕ)
    (lat lng : ℚ) (r : WeatherRand) (d : WeatherData) (ts : ℤ)
    (h : mapGet st.weatherCache (lat, lng) = some (d, ts))
    (hfresh : now - ts < CACHE_DURATION) :
    getWeatherData st now month lat lng r = (d, st) := by
  unfold getWeatherData
  rw [h]
  simp [hfresh]

/-- On a miss or an expired entry, `getWeatherData` regenerates and writes
the fresh reading with the current timestamp. -/
lemma getWeatherData_refresh (st : ServiceState) (now : ℤ) (month : ℕ)
    (lat lng : ℚ) (r : WeatherRand)
    (h : mapGet st.weatherCache (lat, lng) = none ∨
         ∃ d ts, mapGet st.weatherCache (lat, lng) = some (d, ts) ∧
           ¬ now - ts < CACHE_DURATION) :
    getWeatherData st now month lat lng r =
      (generateIndianWeatherData month lat lng r now,
       { st with
           weatherCache :=
             mapSet st.weatherCache (lat, lng)
               (generateIndianWeatherData month lat lng r now, now) }) := by
  unfold getWeatherData
  rcases h with h | ⟨d, ts, h, hstale⟩
  · rw [h]
  · rw [h]
    simp [hstale]

/-- A fresh cached geological reading is returned unchanged. -/
lemma getGeologicalData_hit (st : ServiceState) (now : ℤ) (month : ℕ)
    (lat lng : ℚ) (r : GeoRand) (d : GeologicalData) (ts : ℤ)
    (h : mapGet st.geoCache (lat, lng) = some (d, ts))
    (hfresh : now - ts < CACHE_DURATION) :
    getGeologicalData st now month lat lng r = (d, st) := by
  unfold getGeologicalData
  rw [h]
  simp [hfresh]

/-- On a miss or an expired entry, `getGeologicalData` regenerates and
writes the fresh reading with the current timestamp. -/
lemma getGeologicalData_refresh (st : ServiceState) (now : ℤ) (month : ℕ)
    (lat lng : ℚ) (r : GeoRand)
    (h : mapGet st.geoCache (lat, lng) = none ∨
         ∃ d ts, mapGet st.geoCache (lat, lng) = some (d, ts) ∧
           ¬ now - ts < CACHE_DURATION) :
    getGeologicalData st now month lat lng r =
      (generateIndianGeologicalData month lat lng r now,
       { st with
           geoCache :=
             mapSet st.geoCache (lat, lng)
               (generateIndianGeologicalData month lat lng r now, now) }) := by
  unfold getGeologicalData
  rcases h with h | ⟨d, ts, h, hstale⟩
  · rw [h]
  · rw [h]
    simp [hstale]

/-- Claim C3: both getters return the cached reading exactly when its age is
strictly below the 5-minute TTL; an entry at or past the TTL (or a miss)
triggers regeneration and a cache write stamped with the current time; and
a repeated call within the TTL window after such a write returns the
identical reading and leaves the state unchanged. -/
theorem reading_cache_ttl :
    ∀ (st : ServiceState) (now now2 : ℤ) (month : ℕ) (lat lng : ℚ)
      (rw rw2 : WeatherRand) (rg rg2 : GeoRand) (d : WeatherData)
      (g : GeologicalData) (ts : ℤ),
      (mapGet st.weatherCache (lat, lng) = some (d, ts) →
        (now - ts < CACHE_DURATION →
          getWeatherData st now month lat lng rw = (d, st))
        ∧ (¬ now - ts < CACHE_DURATION →
            (getWeatherData st now month lat lng rw).1 =
              generateIndianWeatherData month lat lng rw now
            ∧ mapGet (getWeatherData st now month lat lng rw).2.weatherCache
                (lat, lng) =
                some (generateIndianWeatherData month lat lng rw now, now)))
      ∧ (mapGet st.weatherCache (lat, lng) = none →
          (getWeatherData st now month lat lng rw).1 =
            generateIndianWeatherData month lat lng rw now
          ∧ mapGet (getWeatherData st now month lat lng rw).2.weatherCache
              (lat, lng) =
              some (generateIndianWeatherData month lat lng rw now, now))
      ∧ (mapGet st.geoCache (lat, lng) = some (g, ts) →
          (now - ts < CACHE_DURATION →
            getGeologicalData st now month lat lng rg = (g, st))
          ∧ (¬ now - ts < CACHE_DURATION →
              (getGeologicalData st now month lat lng rg).1 =
                generateIndianGeologicalData month lat lng rg now
              ∧ mapGet
                  (getGeologicalData st now month lat lng rg).2.geoCache
                  (lat, lng) =
                  some (generateIndianGeologicalData month lat lng rg now,
                    now)))
      ∧ (mapGet st.geoCache (lat, lng) = none →
          (getGeologicalData st now month lat lng rg).1 =
            generateIndianGeologicalData month lat lng rg now
          ∧ mapGet (getGeologicalData st now month lat lng rg).2.geoCache
              (lat, lng) =
              some (generateIndianGeologicalData month lat lng rg now, now))
      ∧ ((mapGet st.weatherCache (lat, lng) = none ∨
            (mapGet st.weatherCache (lat, lng) = some (d, ts) ∧
              ¬ now - ts < CACHE_DURATION)) →
          now ≤ now2 → now2 - now < CACHE_DURATION →
          getWeatherData (getWeatherData st now month lat lng rw).2 now2
              month lat lng rw2 =
            ((getWeatherData st now month lat lng rw).1,
             (getWeatherData st now month lat lng rw).2))
      ∧ ((mapGet st.geoCache (lat, lng) = none ∨
            (mapGet st.geoCache (lat, lng) = some (g, ts) ∧
              ¬ now - ts < CACHE_DURATION)) →
          now ≤ now2 → now2 - now < CACHE_DURATION →
          getGeologicalData (getGeologicalData st now month lat lng rg).2
              now2 month lat lng rg2 =
            ((getGeologicalData st now month lat lng rg).1,
             (getGeologicalData st now month lat lng rg).2)) := by
  intro st now now2 month lat lng rw rw2 rg rg2 d g ts
  refine ⟨?_, ?_, ?_, ?_, ?_, ?_⟩
  · intro h
    refine ⟨fun hfresh => getWeatherData_hit st now month lat lng rw d ts
      h hfresh, fun hstale => ?_⟩
    rw [getWeatherData_refresh st now month lat lng rw
      (Or.inr ⟨d, ts, h, hstale⟩)]
    exact ⟨rfl, mapGet_mapSet_self _ _ _⟩
  · intro h
    rw [getWeatherData_refresh st now month lat lng rw (Or.inl h)]
    exact ⟨rfl, mapGet_mapSet_self _ _ _⟩
  · intro h
    refine ⟨fun hfresh => getGeologicalData_hit st now month lat lng rg g ts
      h hfresh, fun hstale => ?_⟩
    rw [getGeologicalData_refresh st now month lat lng rg
      (Or.inr ⟨g, ts, h, hstale⟩)]
    exact ⟨rfl, mapGet_mapSet_self _ _ _⟩
  · intro h
    rw [getGeologicalData_refresh st now month lat lng rg (Or.inl h)]
    exact ⟨rfl, mapGet_mapSet_self _ _ _⟩
  · intro h hle hwin
    have hrw : getWeatherData st now month lat lng rw =
        (generateIndianWeatherData month lat lng rw now,
         { st with
             weatherCache :=
               mapSet st.weatherCache (lat, lng)
                 (generateIndianWeatherData month lat lng rw now, now) }) :=
      getWeatherData_refresh st now month lat lng rw
        (h.imp id (fun hc => ⟨d, ts, hc.1, hc.2⟩))
    rw [hrw]
    exact getWeatherData_hit _ now2 month lat lng rw2 _ now
      (mapGet_mapSet_self _ _ _) hwin
  · intro h hle hwin
    have hrg : getGeologicalData st now month lat lng rg =
        (generateIndianGeologicalData month lat lng rg now,
         { st with
             geoCache :=
               mapSet st.geoCache (lat, lng)
                 (generateIndianGeologicalData month lat lng rg now, now) }) :=
      getGeologicalData_refresh st now month lat lng rg
        (h.imp id (fun hc => ⟨g, ts, hc.1, hc.2⟩))
    rw [hrg]
    exact getGeologicalData_hit _ now2 month lat lng rg2 _ now
      (mapGet_mapSet_self _ _ _) hwin

/-- Claim C3 witness: on the empty cache at time 0, `getWeatherData` computes a
fresh reading for `(0, 0)` and stores it with timestamp 0. -/
theorem reading_cache_ttl_witness :
    (getWeatherData ServiceState.empty 0 7 0 0 sampleWR).1 =
      generateIndianWeatherData 7 0 0 sampleWR 0
    ∧ mapGet (getWeatherData ServiceState.empty 0 7 0 0
        sampleWR).2.weatherCache (0, 0) =
        some (generateIndianWeatherData 7 0 0 sampleWR 0, 0) :=
  (reading_cache_ttl ServiceState.empty 0 1000 7 0 0 sampleWR sampleWR
      sampleGR sampleGR sampleWeather sampleGeo 0).2.1 rfl

/-- The Himalayan check, when it matches, fixes slope, seismic activity and
terrain stability regardless of the later region checks. -/
lemma geo_himalayan_fields (month : ℕ) (lat lng : ℚ) (r : GeoRand) (now : ℤ)
    (h : isHimalayanRegion lat lng = true) :
    (generateIndianGeologicalData month lat lng r now).slopeAngle =
        round1 (25 + r.slope * 20)
    ∧ (generateIndianGeologicalData month lat lng r now).seismicActivity =
        round1 (3/2 + r.seismic * (5/2))
    ∧ (generateIndianGeologicalData month lat lng r now).terrainStability =
        (jsRound (50 + r.terrain * 30) : ℚ) := by
  unfold generateIndianGeologicalData
  simp [h]

/-- The Western Ghats check governs the three geological fields exactly when
the Himalayan check failed. -/
lemma geo_westernGhats_fields (month : ℕ) (lat lng : ℚ) (r : GeoRand)
    (now : ℤ) (h1 : isHimalayanRegion lat lng = false)
    (h2 : isWesternGhats lat lng = true) :
    (generateIndianGeologicalData month lat lng r now).slopeAngle =
        round1 (15 + r.slope * 15)
    ∧ (generateIndianGeologicalData month lat lng r now).seismicActivity =
        round1 (1/2 + r.seismic * (3/2))
    ∧ (generateIndianGeologicalData month lat lng r now).terrainStability =
        (jsRound (60 + r.terrain * 25) : ℚ) := by
  unfold generateIndianGeologicalData
  simp [h1, h2]

/-- The Deccan Plateau check governs the three geological fields exactly
when the two earlier checks failed. -/
lemma geo_deccan_fields (month : ℕ) (lat lng : ℚ) (r : GeoRand) (now : ℤ)
    (h1 : isHimalayanRegion lat lng = false)
    (h2 : isWesternGhats lat lng = false)
    (h3 : isDeccanPlateau lat lng = true) :
    (generateIndianGeologicalData month lat lng r now).slopeAngle =
        round1 (2 + r.slope * 8)
    ∧ (generateIndianGeologicalData month lat lng r now).seismicActivity =
        round1 (1/5 + r.seismic * (4/5))
    ∧ (generateIndianGeologicalData month lat lng r now).terrainStability =
        (jsRound (75 + r.terrain * 20) : ℚ) := by
  unfold generateIndianGeologicalData
  simp [h1, h2, h3]

/-- The Gangetic Plain check governs the three geological fields (and adds
15 to soil moisture) exactly when the three earlier checks failed. -/
lemma geo_gangetic_fields (month : ℕ) (lat lng : ℚ) (r : GeoRand) (now : ℤ)
    (h1 : isHimalayanRegion lat lng = false)
    (h2 : isWesternGhats lat lng = false)
    (h3 : isDeccanPlateau lat lng = false)
    (h4 : isGangticPlain lat lng = true) :
    (generateIndianGeologicalData month lat lng r now).slopeAngle =
        round1 (1/2 + r.slope * 3)
    ∧ (generateIndianGeologicalData month lat lng r now).seismicActivity =
        round1 (1/10 + r.seismic * (1/2))
    ∧ (generateIndianGeologicalData month lat lng r now).terrainStability =
        (jsRound (85 + r.terrain * 15) : ℚ)
    ∧ (generateIndianGeologicalData month lat lng r now).soilMoisture =
        (jsRound ((if month ∈ MONSOON_MONTHS then 60 + r.soil * 35
                   else 20 + r.soil * 40) + 15) : ℚ) := by
  unfold generateIndianGeologicalData
  simp [h1, h2, h3, h4]

/-- Evaluation rule for `jsRound` from the floor characterisation. -/
lemma jsRound_eq (q : ℚ) (z : ℤ) (hlo : (z : ℚ) ≤ q + 1/2)
    (hhi : q + 1/2 < (z : ℚ) + 1) : jsRound q = z := by
  unfold jsRound
  exact Int.floor_eq_iff.mpr ⟨hlo, hhi⟩

/-- With no region check matching, the base geological values stand. -/
lemma geo_default_fields (month : ℕ) (lat lng : ℚ) (r : GeoRand) (now : ℤ)
    (h1 : isHimalayanRegion lat lng = false)
    (h2 : isWesternGhats lat lng = false)
    (h3 : isDeccanPlateau lat lng = false)
    (h4 : isGangticPlain lat lng = false) :
    (generateIndianGeologicalData month lat lng r now).slopeAngle = 5
    ∧ (generateIndianGeologicalData month lat lng r now).seismicActivity =
        1/2
    ∧ (generateIndianGeologicalData month lat lng r now).terrainStability =
        85 := by
  unfold generateIndianGeologicalData
  simp [h1, h2, h3, h4]
  refine ⟨?_, ?_, ?_⟩
  · unfold round1
    rw [jsRound_eq ((5 : ℚ) * 10) 50 (by norm_num) (by norm_num)]
    norm_num
  · unfold round1
    rw [jsRound_eq ((2⁻¹ : ℚ) * 10) 5 (by norm_num) (by norm_num)]
    norm_num
  · rw [jsRound_eq (85 : ℚ) 85 (by norm_num) (by norm_num)]
    norm_num

/-- One of the twelve bounding boxes of `getIndianLocationInfo` matches. -/
def inStateBoxes (lat lng : ℚ) : Prop :=
  (28 ≤ lat ∧ lat ≤ 37 ∧ 74 ≤ lng ∧ lng ≤ 80) ∨
  (28 ≤ lat ∧ lat ≤ 31 ∧ 75 ≤ lng ∧ lng ≤ 78) ∨
  (18 ≤ lat ∧ lat ≤ 20 ∧ 72 ≤ lng ∧ lng ≤ 75) ∨
  (12 ≤ lat ∧ lat ≤ 16 ∧ 74 ≤ lng ∧ lng ≤ 78) ∨
  (8 ≤ lat ∧ lat ≤ 12 ∧ 76 ≤ lng ∧ lng ≤ 78) ∨
  (8 ≤ lat ∧ lat ≤ 12 ∧ 74 ≤ lng ∧ lng ≤ 77) ∨
  (22 ≤ lat ∧ lat ≤ 27 ∧ 87 ≤ lng ∧ lng ≤ 89) ∨
  (21 ≤ lat ∧ lat ≤ 24 ∧ 68 ≤ lng ∧ lng ≤ 74) ∨
  (24 ≤ lat ∧ lat ≤ 28 ∧ 77 ≤ lng ∧ lng ≤ 84) ∨
  (21 ≤ lat ∧ lat ≤ 26 ∧ 74 ≤ lng ∧ lng ≤ 82) ∨
  (29 ≤ lat ∧ lat ≤ 31 ∧ 77 ≤ lng ∧ lng ≤ 81) ∨
  (24 ≤ lat ∧ lat ≤ 28 ∧ 89 ≤ lng ∧ lng ≤ 96)

instance (lat lng : ℚ) : Decidable (inStateBoxes lat lng) := by
  unfold inStateBoxes; infer_instance

/-- Coordinates outside all twelve boxes fall back to the first-listed
state. -/
lemma locationInfo_default (lat lng : ℚ) (h : ¬ inStateBoxes lat lng) :
    getIndianLocationInfo lat lng =
      ⟨"Maharashtra", "Mumbai", "Western India"⟩ := by
  unfold inStateBoxes at h
  simp only [not_or] at h
  obtain ⟨h1, h2, h3, h4, h5, h6, h7, h8, h9, h10, h11, h12⟩ := h
  unfold getIndianLocationInfo
  rw [if_neg h1, if_neg h2, if_neg h3, if_neg h4, if_neg h5, if_neg h6,
    if_neg h7, if_neg h8, if_neg h9, if_neg h10, if_neg h11, if_neg h12]

/-- Claim C7: the four region checks are applied in the fixed priority order
Himalayan, Western Ghats, Deccan Plateau, Gangetic Plain, only the first
match overriding slope angle, seismic activity and terrain stability; and
coordinates matching none of the twelve state boxes get the default
Maharashtra/Mumbai/Western India location. -/
theorem geo_region_priority_and_default_location :
    ∀ (month : ℕ) (lat lng : ℚ) (r : GeoRand) (now : ℤ),
      (isHimalayanRegion lat lng = true →
        (generateIndianGeologicalData month lat lng r now).slopeAngle =
            round1 (25 + r.slope * 20)
        ∧ (generateIndianGeologicalData month lat lng r
              now).seismicActivity = round1 (3/2 + r.seismic * (5/2))
        ∧ (generateIndianGeologicalData month lat lng r
              now).terrainStability = (jsRound (50 + r.terrain * 30) : ℚ))
      ∧ (isHimalayanRegion lat lng = false →
          isWesternGhats lat lng = true →
          (generateIndianGeologicalData month lat lng r now).slopeAngle =
              round1 (15 + r.slope * 15)
          ∧ (generateIndianGeologicalData month lat lng r
                now).seismicActivity = round1 (1/2 + r.seismic * (3/2))
          ∧ (generateIndianGeologicalData month lat lng r
                now).terrainStability = (jsRound (60 + r.terrain * 25) : ℚ))
      ∧ (isHimalayanRegion lat lng = false →
          isWesternGhats lat lng = false →
          isDeccanPlateau lat lng = true →
          (generateIndianGeologicalData month lat lng r now).slopeAngle =
              round1 (2 + r.slope * 8)
          ∧ (generateIndianGeologicalData month lat lng r
                now).seismicActivity = round1 (1/5 + r.seismic * (4/5))
          ∧ (generateIndianGeologicalData month lat lng r
                now).terrainStability = (jsRound (75 + r.terrain * 20) : ℚ))
      ∧ (isHimalayanRegion lat lng = false →
          isWesternGhats lat lng = false →
          isDeccanPlateau lat lng = false →
          isGangticPlain lat lng = true →
          (generateIndianGeologicalData month lat lng r now).slopeAngle =
              round1 (1/2 + r.slope * 3)
          ∧ (generateIndianGeologicalData month lat lng r
                now).seismicActivity = round1 (1/10 + r.seismic * (1/2))
          ∧ (generateIndianGeologicalData month lat lng r
                now).terrainStability = (jsRound (85 + r.terrain * 15) : ℚ))
      ∧ (isHimalayanRegion lat lng = false →
          isWesternGhats lat lng = false →
          isDeccanPlateau lat lng = false →
          isGangticPlain lat lng = false →
          (generateIndianGeologicalData month lat lng r now).slopeAngle = 5
          ∧ (generateIndianGeologicalData month lat lng r
                now).seismicActivity = 1/2
          ∧ (generateIndianGeologicalData month lat lng r
                now).terrainStability = 85)
      ∧ (¬ inStateBoxes lat lng →
          getIndianLocationInfo lat lng =
            ⟨"Maharashtra", "Mumbai", "Western India"⟩) := by
  intro month lat lng r now
  refine ⟨geo_himalayan_fields month lat lng r now,
          geo_westernGhats_fields month lat lng r now,
          geo_deccan_fields month lat lng r now,
          fun h1 h2 h3 h4 => ?_,
          geo_default_fields month lat lng r now,
          locationInfo_default lat lng⟩
  have h := geo_gangetic_fields month lat lng r now h1 h2 h3 h4
  exact ⟨h.1, h.2.1, h.2.2.1⟩

/-- Claim C7 witness: at the Himalayan point `(34, 77)` the Himalayan ranges
apply, and at `(50, 50)` (outside every box) the default location is
returned. -/
theorem geo_region_priority_and_default_location_witness :
    ((generateIndianGeologicalData 7 34 77 sampleGR 0).slopeAngle =
        round1 (25 + (sampleGR).slope * 20)
      ∧ (generateIndianGeologicalData 7 34 77 sampleGR 0).seismicActivity =
          round1 (3/2 + (sampleGR).seismic * (5/2))
      ∧ (generateIndianGeologicalData 7 34 77 sampleGR 0).terrainStability =
          (jsRound (50 + (sampleGR).terrain * 30) : ℚ))
    ∧ getIndianLocationInfo 50 50 =
        ⟨"Maharashtra", "Mumbai", "Western India"⟩ :=
  ⟨(geo_region_priority_and_default_location 7 34 77 sampleGR 0).1
      (by decide),
   (geo_region_priority_and_default_location 7 50 50 sampleGR 0).2.2.2.2.2
      (by decide)⟩

/-- Claim C8: for every input, both getters succeed: the `Except`-typed wrappers
always return `ok` and never the `Failed to fetch` error of the unreachable
catch branch; no coordinate validation exists. -/
theorem getters_total_never_fail :
    ∀ (st : ServiceState) (now : ℤ) (month : ℕ) (lat lng : ℚ)
      (rw : WeatherRand) (rg : GeoRand),
      getWeatherDataE st now month lat lng rw =
        .ok (getWeatherData st now month lat lng rw)
      ∧ getGeologicalDataE st now month lat lng rg =
          .ok (getGeologicalData st now month lat lng rg)
      ∧ (∀ e : String, getWeatherDataE st now month lat lng rw ≠ .error e)
      ∧ (∀ e : String,
          getGeologicalDataE st now month lat lng rg ≠ .error e) := by
  intro st now month lat lng rw rg
  exact ⟨rfl, rfl, fun e h => Except.noConfusion h,
         fun e h => Except.noConfusion h⟩

/-- Claim C10: on the Gangetic branch in a monsoon month the soil moisture is
the monsoon base plus 15, its rounded value lies in `[75, 110]`, and values
above 100% occur (e.g. 103 at `(26, 80)` with soil draw `4/5`). -/
theorem gangetic_monsoon_soil_range :
    (∀ (month : ℕ) (lat lng : ℚ) (r : GeoRand) (now : ℤ),
      month ∈ MONSOON_MONTHS →
      isHimalayanRegion lat lng = false →
      isWesternGhats lat lng = false →
      isDeccanPlateau lat lng = false →
      isGangticPlain lat lng = true →
      0 ≤ r.soil → r.soil < 1 →
      (generateIndianGeologicalData month lat lng r now).soilMoisture =
        (jsRound (60 + r.soil * 35 + 15) : ℚ)
      ∧ 75 ≤ (generateIndianGeologicalData month lat lng r now).soilMoisture
      ∧ (generateIndianGeologicalData month lat lng r now).soilMoisture
          ≤ 110)
    ∧ 100 < (generateIndianGeologicalData 7 26 80
        ⟨4/5, 0, 0, 0, 0⟩ 0).soilMoisture := by
  constructor
  · intro month lat lng r now hmon h1 h2 h3 h4 hs0 hs1
    have hfields := geo_gangetic_fields month lat lng r now h1 h2 h3 h4
    have hsoil : (generateIndianGeologicalData month lat lng r
        now).soilMoisture = (jsRound (60 + r.soil * 35 + 15) : ℚ) := by
      rw [hfields.2.2.2, if_pos hmon]
    have hmul0 : 0 ≤ r.soil * 35 := mul_nonneg hs0 (by norm_num)
    have hmul1 : r.soil * 35 < 35 := by nlinarith
    refine ⟨hsoil, ?_, ?_⟩
    · rw [hsoil]
      have hfl : (75 : ℤ) ≤ jsRound (60 + r.soil * 35 + 15) := by
        unfold jsRound
        exact Int.le_floor.mpr (by push_cast; linarith)
      exact_mod_cast hfl
    · rw [hsoil]
      have hfl : jsRound (60 + r.soil * 35 + 15) < 111 := by
        unfold jsRound
        exact Int.floor_lt.mpr (by push_cast; linarith)
      have hle : jsRound (60 + r.soil * 35 + 15) ≤ 110 := by omega
      exact_mod_cast hle
  · have hfields := geo_gangetic_fields 7 26 80 ⟨4/5, 0, 0, 0, 0⟩ 0
      (by decide) (by decide) (by decide) (by decide)
    rw [hfields.2.2.2, if_pos (by decide : (7 : ℕ) ∈ MONSOON_MONTHS)]
    have h103 : jsRound (60 + (⟨4/5, 0, 0, 0, 0⟩ : GeoRand).soil * 35 + 15)
        = 103 := by
      rw [show (60 + (⟨4/5, 0, 0, 0, 0⟩ : GeoRand).soil * 35 + 15 : ℚ)
          = 103 by norm_num]
      exact jsRound_eq _ _ (by norm_num) (by norm_num)
    rw [h103]
    norm_num

/-- Claim C10 witness: at `(26, 80)` in July with soil draw `1/2`, the soil
moisture equals the rounded monsoon base plus 15 and lies in `[75, 110]`. -/
theorem gangetic_monsoon_soil_range_witness :
    (generateIndianGeologicalData 7 26 80
        ⟨1/2, 0, 0, 0, 0⟩ 0).soilMoisture =
      (jsRound (60 + (⟨1/2, 0, 0, 0, 0⟩ : GeoRand).soil * 35 + 15) : ℚ)
    ∧ 75 ≤ (generateIndianGeologicalData 7 26 80
        ⟨1/2, 0, 0, 0, 0⟩ 0).soilMoisture
    ∧ (generateIndianGeologicalData 7 26 80
        ⟨1/2, 0, 0, 0, 0⟩ 0).soilMoisture ≤ 110 :=
  gangetic_monsoon_soil_range.1 7 26 80 ⟨1/2, 0, 0, 0, 0⟩ 0
    (by decide) (by decide) (by decide) (by decide) (by decide)
    (by norm_num) (by norm_num)

/-- Override of the precipitation field, modelling the spec example's
`precipitation forced to 60 mm/hr`. -/
def withPrecipitation (w : WeatherData) (p : ℚ) : WeatherData :=
  { w with current := { w.current with precipitation := p } }

/-- Override of the soil-moisture field, modelling the spec example's
`soil moisture forced to 85%`. -/
def withSoilMoisture (g : GeologicalData) (m : ℚ) : GeologicalData :=
  { g with soilMoisture := m }

/-- The July weather reading at `(28.6, 77.2)` with precipitation forced to
60 mm/hr. -/
def forcedWeather (rw : WeatherRand) (now : ℤ) : WeatherData :=
  withPrecipitation (generateIndianWeatherData 7 28.6 77.2 rw now) 60

/-- The July geological reading at `(28.6, 77.2)` with soil moisture forced
to 85%. -/
def forcedGeo (rg : GeoRand) (now : ℤ) : GeologicalData :=
  withSoilMoisture (generateIndianGeologicalData 7 28.6 77.2 rg now) 85

/-- A service state whose caches hold the two forced readings for
`(28.6, 77.2)`, fetched at the current time. -/
def forcedState (rw : WeatherRand) (rg : GeoRand) (now : ℤ)
    (ac : List (String × Alert)) : ServiceState :=
  ⟨[((28.6, 77.2), (forcedWeather rw now, now))],
   [((28.6, 77.2), (forcedGeo rg now, now))], ac⟩

/-- Claim C2: at `(28.6, 77.2)` in July with precipitation forced to 60 and
soil moisture forced to 85, every `generateAlerts` call yields a landslide
score of at least 80 with a Critical landslide alert, plus a Critical
flash-flood alert, whatever the remaining random draws. -/
theorem delhi_july_forced_readings_critical :
    ∀ (now : ℤ) (rw : WeatherRand) (rg : GeoRand)
      (ac : List (String × Alert)) (locationName : String) (ids : AlertIds),
      0 ≤ rg.slope → rg.slope < 1 →
      80 ≤ (assessLandslideRisk (forcedWeather rw now)
              (forcedGeo rg now)).score
      ∧ (∃ a ∈ (generateAlerts (forcedState rw rg now ac) now 7 28.6 77.2
            locationName rw rg ids).1,
          a.type = AlertType.landslide ∧ a.severity = .Critical)
      ∧ (∃ a ∈ (generateAlerts (forcedState rw rg now ac) now 7 28.6 77.2
            locationName rw rg ids).1,
          a.type = AlertType.flash_flood ∧ a.severity = .Critical) := by
  intro now rw rg ac locationName ids hs0 hs1
  have hfresh : now - now < CACHE_DURATION := by
    rw [sub_self]
    norm_num [CACHE_DURATION]
  have hw : getWeatherData (forcedState rw rg now ac) now 7 28.6 77.2 rw =
      (forcedWeather rw now, forcedState rw rg now ac) :=
    getWeatherData_hit (forcedState rw rg now ac) now 7 28.6 77.2 rw
      (forcedWeather rw now) now (by simp [forcedState, mapGet]) hfresh
  have hg : getGeologicalData (forcedState rw rg now ac) now 7 28.6 77.2
        rg = (forcedGeo rg now, forcedState rw rg now ac) :=
    getGeologicalData_hit (forcedState rw rg now ac) now 7 28.6 77.2 rg
      (forcedGeo rg now) now (by simp [forcedState, mapGet]) hfresh
  have hprec : (forcedWeather rw now).current.precipitation = 60 := rfl
  have hsoilm : (forcedGeo rg now).soilMoisture = 85 := rfl
  have hhim : isHimalayanRegion (28.6 : ℚ) 77.2 = true := by
    unfold isHimalayanRegion
    rw [decide_eq_true_eq]
    norm_num
  have hslope_eq : (forcedGeo rg now).slopeAngle =
      round1 (25 + rg.slope * 20) :=
    (geo_himalayan_fields 7 28.6 77.2 rg now hhim).1
  have hslope_gt : 20 < (forcedGeo rg now).slopeAngle := by
    rw [hslope_eq]
    unfold round1
    have hfl : (250 : ℤ) ≤ jsRound ((25 + rg.slope * 20) * 10) := by
      unfold jsRound
      apply Int.le_floor.mpr
      push_cast
      nlinarith
    have hq : (250 : ℚ) ≤ (jsRound ((25 + rg.slope * 20) * 10) : ℚ) := by
      exact_mod_cast hfl
    linarith
  have hrain : rainfallFactor (forcedWeather rw now) = 40 := by
    unfold rainfallFactor
    rw [hprec]
    norm_num
  have hsoilf : soilMoistureFactor (forcedGeo rg now) = 30 := by
    unfold soilMoistureFactor
    rw [hsoilm]
    norm_num
  have hslopef : 15 ≤ slopeAngleFactor (forcedGeo rg now) := by
    unfold slopeAngleFactor
    by_cases h30 : (forcedGeo rg now).slopeAngle > 30
    · rw [if_pos h30]
      norm_num
    · rw [if_neg h30, if_pos hslope_gt]
  have hscore : 80 ≤ (assessLandslideRisk (forcedWeather rw now)
      (forcedGeo rg now)).score := by
    rw [assessLandslideRisk_score_eq, hrain, hsoilf]
    omega
  have hcrit : (assessLandslideRisk (forcedWeather rw now)
      (forcedGeo rg now)).severity = .Critical := by
    rw [assessLandslideRisk_severity_eq]
    exact if_pos hscore
  have hne : (assessLandslideRisk (forcedWeather rw now)
      (forcedGeo rg now)).severity ≠ .Low := by
    rw [hcrit]
    simp
  refine ⟨hscore, ?_, ?_⟩
  · rw [generateAlerts_fst]
    simp only [hw, hg]
    refine ⟨createLandslideAlert
      (assessLandslideRisk (forcedWeather rw now) (forcedGeo rg now))
      (forcedWeather rw now) (forcedGeo rg now) locationName now
      ids.landslide, ?_, rfl, hcrit⟩
    apply List.mem_append.mpr
    left
    rw [if_pos hne]
    exact List.mem_singleton.mpr rfl
  · rw [generateAlerts_fst]
    simp only [hw, hg]
    have hp25 : (forcedWeather rw now).current.precipitation > 25 := by
      rw [hprec]
      norm_num
    have hp50 : (forcedWeather rw now).current.precipitation > 50 := by
      rw [hprec]
      norm_num
    refine ⟨createFloodAlert (forcedWeather rw now) locationName now
      ids.flood, ?_, rfl, ?_⟩
    · apply List.mem_append.mpr
      right
      unfold assessWeatherHazards
      apply List.mem_append.mpr
      right
      rw [if_pos hp25]
      exact List.mem_singleton.mpr rfl
    · show (if (forcedWeather rw now).current.precipitation > 50
          then AlertSeverity.Critical else .High) = .Critical
      exact if_pos hp50

/-- Claim C2 witness: with all draws zero (and any cached alerts empty), the
forced readings produce the Critical landslide score and both Critical
alerts. -/
theorem delhi_july_forced_readings_critical_witness :
    80 ≤ (assessLandslideRisk (forcedWeather sampleWR 0)
            (forcedGeo sampleGR 0)).score
    ∧ (∃ a ∈ (generateAlerts (forcedState sampleWR sampleGR 0 []) 0 7 28.6
          77.2 "Delhi" sampleWR sampleGR sampleIds).1,
        a.type = AlertType.landslide ∧ a.severity = .Critical)
    ∧ (∃ a ∈ (generateAlerts (forcedState sampleWR sampleGR 0 []) 0 7 28.6
          77.2 "Delhi" sampleWR sampleGR sampleIds).1,
        a.type = AlertType.flash_flood ∧ a.severity = .Critical) :=
  delhi_july_forced_readings_critical 0 sampleWR sampleGR [] "Delhi"
    sampleIds (by norm_num [sampleGR]) (by norm_num [sampleGR])

/-- Witness for the landslide claim: the factor-sum and Critical threshold
hold on the sample readings. -/
theorem landslide_score_is_factor_sum_and_gates_alert_witness :
    (assessLandslideRisk sampleWeather sampleGeo).score =
      rainfallFactor sampleWeather + soilMoistureFactor sampleGeo +
        slopeAngleFactor sampleGeo + seismicFactor sampleGeo
    ∧ ((assessLandslideRisk sampleWeather sampleGeo).severity = .Critical ↔
        80 ≤ (assessLandslideRisk sampleWeather sampleGeo).score) :=
  ⟨(landslide_score_is_factor_sum_and_gates_alert sampleWeather
      sampleGeo).1,
   (landslide_score_is_factor_sum_and_gates_alert sampleWeather
      sampleGeo).2.1⟩

/-- Witness for the totality claim: even the far out-of-range coordinates
`(1000, -500)` produce a successful reading. -/
theorem getters_total_never_fail_witness :
    getWeatherDataE ServiceState.empty 0 7 1000 (-500) sampleWR =
      .ok (getWeatherData ServiceState.empty 0 7 1000 (-500) sampleWR) :=
  (getters_total_never_fail ServiceState.empty 0 7 1000 (-500) sampleWR
      sampleGR).1

end WeatherSvc
